import Mathlib

/-!
Shallow embedding of the in-memory RPC server of this repository
(`src/communication/in_memory_rpc_server.rs`) and the status model
(`src/ustatus.rs`).  Machine integers are modelled as `Nat`; the `u16`
conversion that can fail is modelled explicitly.  Asynchronous handler
invocation is modelled by a result paired with the (millisecond) time at
which the handler future completes; the `tokio::time::timeout` race is
modelled as a comparison of that completion time against the deadline.
External capabilities (transport, URI provider, attribute validator,
request handler) are parameters, as in the source.
-/

namespace UProto

/-- Protocol status codes (`UCode`), with the gRPC numbering. -/
inductive UCode where
  | OK
  | CANCELLED
  | UNKNOWN
  | INVALID_ARGUMENT
  | DEADLINE_EXCEEDED
  | NOT_FOUND
  | ALREADY_EXISTS
  | PERMISSION_DENIED
  | RESOURCE_EXHAUSTED
  | FAILED_PRECONDITION
  | ABORTED
  | OUT_OF_RANGE
  | UNIMPLEMENTED
  | INTERNAL
  | UNAVAILABLE
  | DATA_LOSS
  | UNAUTHENTICATED
  deriving DecidableEq, Repr

/-- Wire value of a `UCode` (gRPC numbering). -/
def UCode.value : UCode → Nat
  | .OK => 0
  | .CANCELLED => 1
  | .UNKNOWN => 2
  | .INVALID_ARGUMENT => 3
  | .DEADLINE_EXCEEDED => 4
  | .NOT_FOUND => 5
  | .ALREADY_EXISTS => 6
  | .PERMISSION_DENIED => 7
  | .RESOURCE_EXHAUSTED => 8
  | .FAILED_PRECONDITION => 9
  | .ABORTED => 10
  | .OUT_OF_RANGE => 11
  | .UNIMPLEMENTED => 12
  | .INTERNAL => 13
  | .UNAVAILABLE => 14
  | .DATA_LOSS => 15
  | .UNAUTHENTICATED => 16

/-- Message identifiers (`UUID`), opaque; modelled as naturals. -/
abbrev UUID := Nat

/-- Message priority classes (`UPriority`). -/
inductive UPriority where
  | UNSPECIFIED
  | CS0
  | CS1
  | CS2
  | CS3
  | CS4
  | CS5
  | CS6
  deriving DecidableEq, Repr

/-- Payload formats (`UPayloadFormat`); only the variants the embedded
code mentions are distinguished, plus the default. -/
inductive UPayloadFormat where
  | UNSPECIFIED
  | PROTOBUF_WRAPPED_IN_ANY
  | PROTOBUF
  | JSON
  | RAW
  | TEXT
  deriving DecidableEq, Repr

/-- Message kinds (`UMessageType`). -/
inductive UMessageType where
  | UNSPECIFIED
  | PUBLISH
  | REQUEST
  | RESPONSE
  | NOTIFICATION
  deriving DecidableEq, Repr

/-- uProtocol addresses (`UUri`): authority, entity id, major version,
resource id (a `u32` in the source, modelled as `Nat`). -/
structure UUri where
  authority_name : String := ""
  ue_id : Nat := 0
  ue_version_major : Nat := 0
  resource_id : Nat := 0
  deriving DecidableEq, Repr

/-- Modelled from the spec: `UUri::is_rpc_method` (defined outside src/) —
the address denotes a method, i.e. its resource id lies in [0x0001, 0x7FFF]. -/
def UUri.is_rpc_method (u : UUri) : Bool :=
  decide (1 ≤ u.resource_id ∧ u.resource_id ≤ 0x7FFF)

/-- Modelled from the spec: `UUri::is_rpc_response` (defined outside src/) —
the address is response-capable, i.e. its resource-id field is 0. -/
def UUri.is_rpc_response (u : UUri) : Bool :=
  decide (u.resource_id = 0)

/-- Modelled from the spec: `UUri::any` (defined outside src/), the
wildcard address used when no origin filter is given. -/
def UUri.any : UUri :=
  { authority_name := "*", ue_id := 0xFFFF, ue_version_major := 0xFF,
    resource_id := 0xFFFF }

/-- The status object of `src/ustatus.rs` (`UStatus`): optional code and
optional message. -/
structure UStatus where
  code : Option UCode := none
  message : Option String := none
  deriving DecidableEq, Repr

/-- `UStatus::get_code`: the stored code, defaulting to `OK`
(`enum_value_or_default`). -/
def UStatus.get_code (s : UStatus) : UCode :=
  s.code.getD .OK

/-- `UStatus::get_message`: the stored message, defaulting to the empty
string. -/
def UStatus.get_message (s : UStatus) : String :=
  s.message.getD ""

/-- `UStatus::fail_with_code`. -/
def UStatus.fail_with_code (code : UCode) (msg : String) : UStatus :=
  { code := some code, message := some msg }

/-- `UStatus::ok`. -/
def UStatus.ok : UStatus :=
  { code := some .OK }

/-- Modelled from the spec: the protobuf wire serialization of a status
object (`UStatus::write_to_bytes`, external protobuf library).  Modelled
as any encoding injective on the observable code and message. -/
def UStatus.write_to_bytes (s : UStatus) : List Nat :=
  s.get_code.value :: (s.get_message.data.map Char.toNat)

/-- Message attributes (`UAttributes`); field defaults follow the
protobuf defaults used by `get_or_default` in the source. -/
structure UAttributes where
  type_ : UMessageType := .UNSPECIFIED
  id : Option UUID := none
  source : Option UUri := none
  sink : Option UUri := none
  priority : UPriority := .UNSPECIFIED
  ttl : Option Nat := none
  payload_format : UPayloadFormat := .UNSPECIFIED
  commstatus : Option UCode := none
  reqid : Option UUID := none
  deriving DecidableEq, Repr

/-- A message (`UMessage`): optional attributes plus optional payload
bytes. -/
structure UMessage where
  attributes : Option UAttributes := none
  payload : Option (List Nat) := none
  deriving DecidableEq, Repr

/-- A typed payload (`UPayload`): data bytes plus their format. -/
structure UPayload where
  data : List Nat
  format : UPayloadFormat
  deriving DecidableEq, Repr

/-- `UPayload::new`. -/
def UPayload.new (data : List Nat) (format : UPayloadFormat) : UPayload :=
  ⟨data, format⟩

/-- `UPayload::payload`. -/
def UPayload.payload (p : UPayload) : List Nat :=
  p.data

/-- `UPayload::payload_format`. -/
def UPayload.payload_format (p : UPayload) : UPayloadFormat :=
  p.format

/-- The invocation-error taxonomy (`ServiceInvocationError`), per the
spec's error-handling design: not-found, deadline-exceeded, and an open
variant carrying free text. -/
inductive ServiceInvocationError where
  | NotFound (msg : String)
  | DeadlineExceeded
  | Other (msg : String)
  deriving DecidableEq, Repr

/-- Modelled from the spec: the `From<ServiceInvocationError> for UStatus`
mapping (defined outside src/) — total, one code per variant, free text
preserved as the status message. -/
def UStatus.from : ServiceInvocationError → UStatus
  | .NotFound m => .fail_with_code .NOT_FOUND m
  | .DeadlineExceeded => { code := some .DEADLINE_EXCEEDED }
  | .Other m => .fail_with_code .UNKNOWN m

/-- The result of awaiting a request handler's `invoke_method` future:
the outcome together with the time (in protocol time units, ms) at which
the future completes. -/
structure InvocationResult where
  completion : Nat
  result : Except ServiceInvocationError (Option UPayload)

/-- A request handler capability (`RequestHandler`), with its completion
timing made explicit. -/
structure RequestHandler where
  invoke_method : Nat → Option UPayload → InvocationResult

/-- Modelled from the spec: `UMessageBuilder::response_for_request`
(external builder helper) — a response envelope whose correlation id is
the request's id, source and sink swapped relative to the request, and
the request's priority; `fresh` is the generated message id. -/
def response_for_request (fresh : UUID) (req : UAttributes) : UAttributes :=
  { type_ := .RESPONSE
    id := some fresh
    reqid := req.id
    source := req.sink
    sink := req.source
    priority := req.priority }

/-- `u16::try_from` on a `u32` value. -/
def u16_try_from (n : Nat) : Option Nat :=
  if n < 65536 then some n else none

/-- The deadline bound in `process_valid_request`: the request's ttl,
defaulting to 10,000 ms (`ttl.unwrap_or(10_000)`). -/
def request_deadline (a : UAttributes) : Nat :=
  a.ttl.getD 10000

/-- `RequestListener::process_valid_request`: extract the resource id
from the sink, race the handler against the ttl deadline, build the
response, send it.  Returns the single message handed to
`transport.send` together with the time at which it is sent, or `none`
when the message is dropped. -/
def process_valid_request (handler : RequestHandler) (fresh : UUID)
    (request_message : UMessage) : Option (UMessage × Nat) :=
  match (request_message.attributes.bind (fun a => a.sink)).bind
      (fun uri => u16_try_from uri.resource_id) with
  | none => none
  | some resource_id =>
    let attribs := request_message.attributes.getD {}
    let request_timeout := attribs.ttl.getD 10000
    let payload_format := attribs.payload_format
    let request_payload :=
      request_message.payload.map (fun data => UPayload.new data payload_format)
    let invocation := handler.invoke_method resource_id request_payload
    -- tokio::time::timeout polls the handler future first, so its result
    -- wins when it completes no later than the deadline
    let outcome : Except ServiceInvocationError (Option UPayload) :=
      if invocation.completion ≤ request_timeout then invocation.result
      else .error .DeadlineExceeded
    let send_time := min invocation.completion request_timeout
    let response : UMessage :=
      match outcome with
      | .ok (some payload) =>
        { attributes := some { response_for_request fresh attribs with
            payload_format := payload.payload_format }
          payload := some payload.payload }
      | .ok none =>
        { attributes := some (response_for_request fresh attribs) }
      | .error e =>
        let error := UStatus.from e
        { attributes := some { response_for_request fresh attribs with
            commstatus := some error.get_code
            payload_format := .PROTOBUF }
          payload := some error.write_to_bytes }
    some (response, send_time)

/-- `RequestListener::process_invalid_request`: when the invalid message
still carries an id and a response-capable source, synthesize and send an
INVALID_ARGUMENT error response; otherwise drop it. -/
def process_invalid_request (validation_error : String) (fresh : UUID)
    (msg : UMessage) : Option UMessage :=
  match (msg.attributes.getD {}).id, (msg.attributes.getD {}).source with
  | some id, some source_address =>
    if source_address.is_rpc_response then
      let response_payload :=
        UStatus.fail_with_code .INVALID_ARGUMENT validation_error
      let response_attributes : UAttributes :=
        { type_ := .RESPONSE
          id := some fresh
          reqid := some id
          commstatus := some response_payload.get_code
          sink := some source_address
          source := (msg.attributes.getD {}).sink
          priority := .CS4
          payload_format := .PROTOBUF }
      some { attributes := some response_attributes
             payload := some response_payload.write_to_bytes }
    else none
  | _, _ => none

/-- `RequestListener::on_receive`: drop messages without attributes,
otherwise dispatch on the request-attribute validator's verdict.  The
validator capability is a parameter returning `some` error text on
failure. -/
def on_receive (validator : UAttributes → Option String)
    (handler : RequestHandler) (fresh : UUID) (msg : UMessage) :
    Option UMessage :=
  match msg.attributes with
  | none => none
  | some attributes =>
    match validator attributes with
    | some e => process_invalid_request e fresh msg
    | none => (process_valid_request handler fresh msg).map Prod.fst

/-- A listener entry stored in the registry (`RequestListener`). -/
structure RequestListener where
  request_handler : RequestHandler

/-- The registry map `HashMap<u16, Arc<dyn UListener>>`, modelled as an
association list with unique keys maintained by the operations. -/
abbrev Registry := List (Nat × RequestListener)

/-- Lookup in the registry. -/
def Registry.find : Registry → Nat → Option RequestListener
  | [], _ => none
  | (k, v) :: rest, r => if k = r then some v else Registry.find rest r

/-- `HashMap::contains_key`. -/
def Registry.contains (reg : Registry) (r : Nat) : Bool :=
  (reg.find r).isSome

/-- Removal of an entry (`Entry::remove`). -/
def Registry.erase : Registry → Nat → Registry
  | [], _ => []
  | (k, v) :: rest, r =>
    if k = r then Registry.erase rest r else (k, v) :: Registry.erase rest r

/-- The registration-error taxonomy (`RegistrationError`); the
transport-delegated variant is modelled from the spec (the enum is
defined outside src/). -/
inductive RegistrationError where
  | InvalidFilter (reason : String)
  | MaxListenersExceeded
  | NoSuchListener
  | TransportError (status : UStatus)
  deriving DecidableEq, Repr

/-- Modelled from the spec: `RegistrationError::from(UStatus)` — a
registration error derived from the transport's status. -/
def RegistrationError.from (s : UStatus) : RegistrationError :=
  .TransportError s

/-- The transport capability (`UTransport`) as used by the registry:
listener (un)registration, returning a status on failure. -/
structure UTransport where
  register_listener : UUri → Option UUri → RequestListener → Except UStatus Unit
  unregister_listener : UUri → Option UUri → RequestListener → Except UStatus Unit

/-- `InMemoryRpcServer::validate_sink_filter`. -/
def validate_sink_filter (filter : UUri) : Except RegistrationError Unit :=
  if !filter.is_rpc_method then
    .error (.InvalidFilter "RPC endpoint resource ID must be in range [0x0001, 0x7FFF]")
  else .ok ()

/-- `InMemoryRpcServer::validate_origin_filter`. -/
def validate_origin_filter (filter : Option UUri) : Except RegistrationError Unit :=
  match filter with
  | some uri =>
    if !uri.is_rpc_response then
      .error (.InvalidFilter "origin filter resource ID must be 0")
    else .ok ()
  | none => .ok ()

/-- `InMemoryRpcServer`: transport, local URI provider
(`get_resource_uri`), and the listener registry. -/
structure InMemoryRpcServer where
  transport : UTransport
  uri_provider : Nat → UUri
  request_listeners : Registry

/-- `InMemoryRpcServer::register_endpoint`: validate the filters, reject
duplicates, call the transport, and insert the entry only on transport
success.  Returns the result together with the updated server state. -/
def register_endpoint (server : InMemoryRpcServer) (origin_filter : Option UUri)
    (resource_id : Nat) (request_handler : RequestHandler) :
    Except RegistrationError Unit × InMemoryRpcServer :=
  match validate_origin_filter origin_filter with
  | .error e => (.error e, server)
  | .ok _ =>
    let sink_filter := server.uri_provider resource_id
    match validate_sink_filter sink_filter with
    | .error e => (.error e, server)
    | .ok _ =>
      if server.request_listeners.contains resource_id then
        (.error .MaxListenersExceeded, server)
      else
        let listener : RequestListener := ⟨request_handler⟩
        match server.transport.register_listener (origin_filter.getD UUri.any)
            (some sink_filter) listener with
        | .ok _ =>
          (.ok (), { server with
            request_listeners := (resource_id, listener) :: server.request_listeners })
        | .error s => (.error (RegistrationError.from s), server)

/-- `InMemoryRpcServer::unregister_endpoint`: validate the filters,
require an existing entry, call the transport, and remove the entry only
on transport success.  The handler argument is ignored by the source
(`_request_handler`). -/
def unregister_endpoint (server : InMemoryRpcServer) (origin_filter : Option UUri)
    (resource_id : Nat) (_request_handler : RequestHandler) :
    Except RegistrationError Unit × InMemoryRpcServer :=
  match validate_origin_filter origin_filter with
  | .error e => (.error e, server)
  | .ok _ =>
    let sink_filter := server.uri_provider resource_id
    match validate_sink_filter sink_filter with
    | .error e => (.error e, server)
    | .ok _ =>
      match server.request_listeners.find resource_id with
      | some listener =>
        match server.transport.unregister_listener (origin_filter.getD UUri.any)
            (some sink_filter) listener with
        | .ok _ =>
          (.ok (), { server with
            request_listeners := server.request_listeners.erase resource_id })
        | .error s => (.error (RegistrationError.from s), server)
      | none => (.error .NoSuchListener, server)

/-! Concrete sample inputs, mirroring the source's test fixtures. -/

/-- A method address (resource id 0x7000). -/
def methodUri : UUri :=
  { authority_name := "localhost", ue_id := 0xA200, ue_version_major := 1,
    resource_id := 0x7000 }

/-- A response-capable address (resource id 0). -/
def replyUri : UUri :=
  { authority_name := "localhost", ue_id := 0xA100, ue_version_major := 1,
    resource_id := 0 }

/-- Attributes of a well-formed request with id 42 and ttl 5000. -/
def sampleRequestAttributes : UAttributes :=
  { type_ := .REQUEST, id := some 42, source := some replyUri,
    sink := some methodUri, priority := .CS4, ttl := some 5000,
    payload_format := .PROTOBUF }

/-- A well-formed request message carrying payload bytes. -/
def sampleRequest : UMessage :=
  { attributes := some sampleRequestAttributes
    payload := some [72, 101, 108, 108, 111] }

/-- A handler that answers after 5 ms with a payload. -/
def okHandler : RequestHandler :=
  ⟨fun _ _ => ⟨5, .ok (some (UPayload.new [1, 2, 3] .PROTOBUF))⟩⟩

/-- A handler whose future only completes after 6000 ms. -/
def slowHandler : RequestHandler :=
  ⟨fun _ _ => ⟨6000, .ok none⟩⟩

/-- A handler that fails with `NotFound` after 5 ms. -/
def notFoundHandler : RequestHandler :=
  ⟨fun _ _ => ⟨5, .error (.NotFound "no such object")⟩⟩

/-- A transport whose registration calls always succeed. -/
def okTransport : UTransport :=
  ⟨fun _ _ _ => .ok (), fun _ _ _ => .ok ()⟩

/-- A failure status returned by the failing transport. -/
def failStatus : UStatus :=
  UStatus.fail_with_code .INTERNAL "boom"

/-- A transport whose registration calls always fail with `failStatus`. -/
def failTransport : UTransport :=
  ⟨fun _ _ _ => .error failStatus, fun _ _ _ => .error failStatus⟩

/-- A local URI provider mapping a resource id to its method address
(as the source's mocked `LocalUriProvider` does). -/
def sampleProvider : Nat → UUri :=
  fun r =>
    { authority_name := "localhost", ue_id := 5, ue_version_major := 2,
      resource_id := r }

/-- A server with an empty registry and a succeeding transport. -/
def emptyServer : InMemoryRpcServer :=
  ⟨okTransport, sampleProvider, []⟩

/-- A server with an empty registry and a failing transport. -/
def emptyFailServer : InMemoryRpcServer :=
  ⟨failTransport, sampleProvider, []⟩

/-- A server holding one entry for resource id 0x7000, failing transport. -/
def occupiedFailServer : InMemoryRpcServer :=
  ⟨failTransport, sampleProvider, [(0x7000, ⟨okHandler⟩)]⟩

/-- A server holding one entry for resource id 0x7000, succeeding transport. -/
def occupiedServer : InMemoryRpcServer :=
  ⟨okTransport, sampleProvider, [(0x7000, ⟨okHandler⟩)]⟩

/-- Attributes that fail request validation (no ttl) but carry an id and
a response-capable source. -/
def invalidRequestAttributes : UAttributes :=
  { type_ := .REQUEST, id := some 99, source := some replyUri,
    sink := some methodUri, priority := .CS5 }

/-- An invalid request message that still admits an error response. -/
def invalidRequest : UMessage :=
  { attributes := some invalidRequestAttributes }

/-- A message with no attributes at all. -/
def emptyMessage : UMessage := {}

/-- A validator capability that accepts every attribute set. -/
def acceptAllValidator : UAttributes → Option String := fun _ => none

/-- A validator capability that rejects every attribute set. -/
def rejectAllValidator : UAttributes → Option String :=
  fun _ => some "validation failed"

/-! Theorems -/

/-- Erasing a key removes every entry for it. -/
theorem Registry.find_erase_self (reg : Registry) (r : Nat) :
    (reg.erase r).find r = none := by
  induction reg with
  | nil => rfl
  | cons p rest ih =>
    obtain ⟨k, v⟩ := p
    by_cases h : k = r <;> simp [Registry.erase, Registry.find, h, ih]

/-- The origin-filter validation either passes or reports the one
invalid-filter reason of the source. -/
theorem validate_origin_filter_cases (o : Option UUri) :
    validate_origin_filter o = .ok () ∨
    validate_origin_filter o =
      .error (.InvalidFilter "origin filter resource ID must be 0") := by
  cases o with
  | none => exact Or.inl rfl
  | some u =>
    cases h : u.is_rpc_response <;> simp [validate_origin_filter, h]

/-- A passing origin filter is response-capable. -/
theorem validate_origin_filter_ok_resource_id (o : Option UUri)
    (h : validate_origin_filter o = .ok ()) :
    ∀ u, o = some u → u.resource_id = 0 := by
  intro u hu
  subst hu
  by_cases hr : u.is_rpc_response
  · simpa [UUri.is_rpc_response] using hr
  · simp [validate_origin_filter, hr] at h

/-- A sink filter whose resource id is outside the method range is
rejected with the source's invalid-filter reason. -/
theorem validate_sink_filter_invalid (u : UUri)
    (h : u.resource_id = 0 ∨ 0x7FFF < u.resource_id) :
    validate_sink_filter u =
      .error (.InvalidFilter
        "RPC endpoint resource ID must be in range [0x0001, 0x7FFF]") := by
  have hnot : ¬ (1 ≤ u.resource_id ∧ u.resource_id ≤ 0x7FFF) := by omega
  simp [validate_sink_filter, UUri.is_rpc_method, hnot]

/-- C1: a valid request whose bound handler returns `Ok(Some(payload))`
within the request's ttl yields exactly one response sent via the
transport, with success comm-status, correlation id equal to the
request's id, and the handler's payload and payload format echoed. -/
theorem valid_request_ok_response
    (handler : RequestHandler) (fresh rid t : Nat) (request_message : UMessage)
    (a : UAttributes) (sinkUri : UUri) (p : UPayload)
    (hattr : request_message.attributes = some a)
    (hsink : a.sink = some sinkUri)
    (hres : sinkUri.resource_id < 65536)
    (hid : a.id = some rid)
    (hinv : handler.invoke_method sinkUri.resource_id
        (request_message.payload.map (fun d => UPayload.new d a.payload_format)) =
      ⟨t, .ok (some p)⟩)
    (ht : t ≤ request_deadline a) :
    ∃ resp sendT,
      process_valid_request handler fresh request_message = some (resp, sendT) ∧
      (resp.attributes.getD {}).type_ = .RESPONSE ∧
      (resp.attributes.getD {}).reqid = some rid ∧
      (resp.attributes.getD {}).commstatus.getD .OK = .OK ∧
      resp.payload = some p.payload ∧
      (resp.attributes.getD {}).payload_format = p.payload_format := by
  have ht' : t ≤ a.ttl.getD 10000 := ht
  have hconv : ((request_message.attributes.bind fun a => a.sink).bind
      fun uri => u16_try_from uri.resource_id) = some sinkUri.resource_id := by
    simp [hattr, hsink, u16_try_from, hres]
  have heq : process_valid_request handler fresh request_message =
      some ({ attributes := some { response_for_request fresh a with
                payload_format := p.payload_format }
              payload := some p.payload }, min t (a.ttl.getD 10000)) := by
    simp only [process_valid_request, hconv]
    simp only [hattr, Option.getD_some]
    rw [hinv]
    simp [ht']
  refine ⟨_, _, heq, ?_, ?_, ?_, ?_, ?_⟩ <;>
    simp [response_for_request, hid, UPayload.payload, UPayload.payload_format]

/-- Witness for C1 at a concrete request, handler and payload. -/
theorem valid_request_ok_response_witness :
    ∃ resp sendT,
      process_valid_request okHandler 7 sampleRequest = some (resp, sendT) ∧
      (resp.attributes.getD {}).type_ = .RESPONSE ∧
      (resp.attributes.getD {}).reqid = some 42 ∧
      (resp.attributes.getD {}).commstatus.getD .OK = .OK ∧
      resp.payload = some (UPayload.new [1, 2, 3] .PROTOBUF).payload ∧
      (resp.attributes.getD {}).payload_format =
        (UPayload.new [1, 2, 3] .PROTOBUF).payload_format :=
  valid_request_ok_response okHandler 7 42 5 sampleRequest
    sampleRequestAttributes methodUri (UPayload.new [1, 2, 3] .PROTOBUF)
    rfl rfl (by decide) rfl rfl (by decide)

/-- C2: the dispatch deadline is the request's ttl, defaulting to 10,000
protocol time units; a handler not completing within it yields exactly
one DEADLINE_EXCEEDED response, sent no earlier than the deadline
elapses, with correlation id equal to the request's id. -/
theorem timeout_deadline_exceeded_response
    (handler : RequestHandler) (fresh rid t : Nat) (request_message : UMessage)
    (a : UAttributes) (sinkUri : UUri)
    (r : Except ServiceInvocationError (Option UPayload))
    (hattr : request_message.attributes = some a)
    (hsink : a.sink = some sinkUri)
    (hres : sinkUri.resource_id < 65536)
    (hid : a.id = some rid)
    (hinv : handler.invoke_method sinkUri.resource_id
        (request_message.payload.map (fun d => UPayload.new d a.payload_format)) =
      ⟨t, r⟩)
    (ht : a.ttl.getD 10000 < t) :
    ∃ resp sendT,
      process_valid_request handler fresh request_message = some (resp, sendT) ∧
      (resp.attributes.getD {}).commstatus = some .DEADLINE_EXCEEDED ∧
      request_deadline a ≤ sendT ∧
      request_deadline a = a.ttl.getD 10000 ∧
      (resp.attributes.getD {}).reqid = some rid ∧
      (resp.attributes.getD {}).type_ = .RESPONSE := by
  have hnot : ¬ t ≤ a.ttl.getD 10000 := not_le.mpr ht
  have hconv : ((request_message.attributes.bind fun a => a.sink).bind
      fun uri => u16_try_from uri.resource_id) = some sinkUri.resource_id := by
    simp [hattr, hsink, u16_try_from, hres]
  have heq : process_valid_request handler fresh request_message =
      some ({ attributes := some { response_for_request fresh a with
                commstatus := some .DEADLINE_EXCEEDED
                payload_format := .PROTOBUF }
              payload := some (UStatus.from .DeadlineExceeded).write_to_bytes },
            min t (a.ttl.getD 10000)) := by
    simp only [process_valid_request, hconv]
    simp only [hattr, Option.getD_some]
    rw [hinv]
    simp [hnot, UStatus.from, UStatus.get_code]
  refine ⟨_, _, heq, ?_, ?_, rfl, ?_, ?_⟩ <;>
    simp [response_for_request, hid, request_deadline, Nat.le_of_lt ht,
      Nat.le_min]

/-- Witness for C2 at a concrete request and a handler that only
completes after the deadline. -/
theorem timeout_deadline_exceeded_response_witness :
    ∃ resp sendT,
      process_valid_request slowHandler 7 sampleRequest = some (resp, sendT) ∧
      (resp.attributes.getD {}).commstatus = some .DEADLINE_EXCEEDED ∧
      request_deadline sampleRequestAttributes ≤ sendT ∧
      request_deadline sampleRequestAttributes =
        sampleRequestAttributes.ttl.getD 10000 ∧
      (resp.attributes.getD {}).reqid = some 42 ∧
      (resp.attributes.getD {}).type_ = .RESPONSE :=
  timeout_deadline_exceeded_response slowHandler 7 42 6000 sampleRequest
    sampleRequestAttributes methodUri (.ok none)
    rfl rfl (by decide) rfl rfl (by decide)

/-- C8: the invocation-error mapping is total and keeps the free text in
the status message; a valid request whose handler fails with `NotFound`
yields exactly one response with comm-status NOT_FOUND, the serialized
status (carrying the error's message text) as payload, and correlation
id equal to the request's id. -/
theorem notfound_error_response
    (handler : RequestHandler) (fresh rid t : Nat) (request_message : UMessage)
    (a : UAttributes) (sinkUri : UUri) (m : String)
    (hattr : request_message.attributes = some a)
    (hsink : a.sink = some sinkUri)
    (hres : sinkUri.resource_id < 65536)
    (hid : a.id = some rid)
    (hinv : handler.invoke_method sinkUri.resource_id
        (request_message.payload.map (fun d => UPayload.new d a.payload_format)) =
      ⟨t, .error (.NotFound m)⟩)
    (ht : t ≤ request_deadline a) :
    ∃ resp sendT,
      process_valid_request handler fresh request_message = some (resp, sendT) ∧
      (resp.attributes.getD {}).commstatus = some .NOT_FOUND ∧
      resp.payload = some (UStatus.fail_with_code .NOT_FOUND m).write_to_bytes ∧
      (UStatus.fail_with_code .NOT_FOUND m).get_message = m ∧
      (resp.attributes.getD {}).reqid = some rid ∧
      (∀ e : ServiceInvocationError, (UStatus.from e).code.isSome = true) ∧
      (∀ s : String, (UStatus.from (.NotFound s)).get_message = s ∧
        (UStatus.from (.Other s)).get_message = s) := by
  have ht' : t ≤ a.ttl.getD 10000 := ht
  have hconv : ((request_message.attributes.bind fun a => a.sink).bind
      fun uri => u16_try_from uri.resource_id) = some sinkUri.resource_id := by
    simp [hattr, hsink, u16_try_from, hres]
  have heq : process_valid_request handler fresh request_message =
      some ({ attributes := some { response_for_request fresh a with
                commstatus := some .NOT_FOUND
                payload_format := .PROTOBUF }
              payload := some (UStatus.fail_with_code .NOT_FOUND m).write_to_bytes },
            min t (a.ttl.getD 10000)) := by
    simp only [process_valid_request, hconv]
    simp only [hattr, Option.getD_some]
    rw [hinv]
    simp [ht', UStatus.from, UStatus.get_code, UStatus.fail_with_code]
  refine ⟨_, _, heq, by simp, by simp,
    by simp [UStatus.fail_with_code, UStatus.get_message],
    by simp [response_for_request, hid], ?_, ?_⟩
  · intro e
    cases e <;> simp [UStatus.from, UStatus.fail_with_code]
  · intro s
    constructor <;>
      simp [UStatus.from, UStatus.fail_with_code, UStatus.get_message]

/-- Witness for C8 at a concrete request and a handler failing with
`NotFound`. -/
theorem notfound_error_response_witness :
    ∃ resp sendT,
      process_valid_request notFoundHandler 7 sampleRequest = some (resp, sendT) ∧
      (resp.attributes.getD {}).commstatus = some .NOT_FOUND ∧
      resp.payload =
        some (UStatus.fail_with_code .NOT_FOUND "no such object").write_to_bytes ∧
      (UStatus.fail_with_code .NOT_FOUND "no such object").get_message =
        "no such object" ∧
      (resp.attributes.getD {}).reqid = some 42 ∧
      (∀ e : ServiceInvocationError, (UStatus.from e).code.isSome = true) ∧
      (∀ s : String, (UStatus.from (.NotFound s)).get_message = s ∧
        (UStatus.from (.Other s)).get_message = s) :=
  notfound_error_response notFoundHandler 7 42 5 sampleRequest
    sampleRequestAttributes methodUri "no such object"
    rfl rfl (by decide) rfl rfl (by decide)

/-- C3: an invalid inbound message carrying a unique id and a
response-capable source yields exactly one synthesized error response —
comm-status INVALID_ARGUMENT, message the validator's error text,
correlation id the message's id, sink its source, source its sink,
priority CS4 (the protocol's highest non-emergency control class), and
the serialized status as payload; without an id, or without a
response-capable source, no response is sent at all. -/
theorem invalid_request_error_response (validation_error : String)
    (fresh : UUID) (msg : UMessage) :
    (∀ id srcUri, (msg.attributes.getD {}).id = some id →
      (msg.attributes.getD {}).source = some srcUri →
      srcUri.is_rpc_response = true →
      ∃ resp, process_invalid_request validation_error fresh msg = some resp ∧
        (resp.attributes.getD {}).type_ = .RESPONSE ∧
        (resp.attributes.getD {}).commstatus = some .INVALID_ARGUMENT ∧
        (resp.attributes.getD {}).reqid = some id ∧
        (resp.attributes.getD {}).sink = some srcUri ∧
        (resp.attributes.getD {}).source = (msg.attributes.getD {}).sink ∧
        (resp.attributes.getD {}).priority = .CS4 ∧
        resp.payload = some (UStatus.fail_with_code .INVALID_ARGUMENT
          validation_error).write_to_bytes ∧
        (UStatus.fail_with_code .INVALID_ARGUMENT validation_error).get_message =
          validation_error) ∧
    ((msg.attributes.getD {}).id = none →
      process_invalid_request validation_error fresh msg = none) ∧
    (∀ srcUri, (msg.attributes.getD {}).source = some srcUri →
      srcUri.is_rpc_response = false →
      process_invalid_request validation_error fresh msg = none) ∧
    ((msg.attributes.getD {}).source = none →
      process_invalid_request validation_error fresh msg = none) := by
  refine ⟨?_, ?_, ?_, ?_⟩
  · intro id srcUri hid hsrc hrpc
    have heq : process_invalid_request validation_error fresh msg =
        some { attributes := some
                 { type_ := .RESPONSE
                   id := some fresh
                   reqid := some id
                   commstatus := some .INVALID_ARGUMENT
                   sink := some srcUri
                   source := (msg.attributes.getD {}).sink
                   priority := .CS4
                   payload_format := .PROTOBUF }
               payload := some (UStatus.fail_with_code .INVALID_ARGUMENT
                 validation_error).write_to_bytes } := by
      simp [process_invalid_request, hid, hsrc, hrpc, UStatus.get_code,
        UStatus.fail_with_code]
    refine ⟨_, heq, ?_, ?_, ?_, ?_, ?_, ?_, ?_, ?_⟩ <;>
      simp [UStatus.fail_with_code, UStatus.get_message]
  · intro hid
    cases hsrc : (msg.attributes.getD {}).source <;>
      simp [process_invalid_request, hid, hsrc]
  · intro srcUri hsrc hrpc
    cases hid : (msg.attributes.getD {}).id <;>
      simp [process_invalid_request, hid, hsrc, hrpc]
  · intro hsrc
    cases hid : (msg.attributes.getD {}).id <;>
      simp [process_invalid_request, hid, hsrc]

/-- Witness for C3 at a concrete invalid message with id 99 and a
response-capable source. -/
theorem invalid_request_error_response_witness :
    ∃ resp, process_invalid_request "no ttl" 3 invalidRequest = some resp ∧
      (resp.attributes.getD {}).type_ = .RESPONSE ∧
      (resp.attributes.getD {}).commstatus = some .INVALID_ARGUMENT ∧
      (resp.attributes.getD {}).reqid = some 99 ∧
      (resp.attributes.getD {}).sink = some replyUri ∧
      (resp.attributes.getD {}).source =
        (invalidRequest.attributes.getD {}).sink ∧
      (resp.attributes.getD {}).priority = .CS4 ∧
      resp.payload = some (UStatus.fail_with_code .INVALID_ARGUMENT
        "no ttl").write_to_bytes ∧
      (UStatus.fail_with_code .INVALID_ARGUMENT "no ttl").get_message =
        "no ttl" :=
  (invalid_request_error_response "no ttl" 3 invalidRequest).1 99 replyUri
    rfl rfl (by decide)

/-- C10: a message with no attributes at all is dropped silently — the
result is empty and does not depend on the validator, the handler or the
id generator, so neither capability is consulted. -/
theorem on_receive_drops_attributeless_message (msg : UMessage)
    (hattr : msg.attributes = none) :
    ∀ (v₁ v₂ : UAttributes → Option String) (h₁ h₂ : RequestHandler)
      (f₁ f₂ : UUID),
      on_receive v₁ h₁ f₁ msg = none ∧
      on_receive v₁ h₁ f₁ msg = on_receive v₂ h₂ f₂ msg := by
  intro v₁ v₂ h₁ h₂ f₁ f₂
  constructor <;> simp [on_receive, hattr]

/-- Witness for C10 at the attribute-free message and two distinct
validator/handler pairs. -/
theorem on_receive_drops_attributeless_message_witness :
    on_receive rejectAllValidator okHandler 0 emptyMessage = none ∧
    on_receive rejectAllValidator okHandler 0 emptyMessage =
      on_receive acceptAllValidator slowHandler 1 emptyMessage :=
  on_receive_drops_attributeless_message emptyMessage rfl
    rejectAllValidator acceptAllValidator okHandler slowHandler 0 1

/-- C4: register and unregister are atomic with respect to transport
failure — a failing transport registration inserts nothing and leaves
the server unchanged, a failing transport deregistration retains the
entry, and both surface the transport-derived error. -/
theorem registration_atomic_on_transport_failure
    (server₁ server₂ : InMemoryRpcServer) (origin_filter : Option UUri)
    (r : Nat) (handler : RequestHandler) (listener : RequestListener)
    (s₁ s₂ : UStatus)
    (hov : validate_origin_filter origin_filter = .ok ())
    (hsv₁ : validate_sink_filter (server₁.uri_provider r) = .ok ())
    (hc : server₁.request_listeners.contains r = false)
    (ht₁ : server₁.transport.register_listener (origin_filter.getD UUri.any)
        (some (server₁.uri_provider r)) ⟨handler⟩ = .error s₁)
    (hsv₂ : validate_sink_filter (server₂.uri_provider r) = .ok ())
    (hf : server₂.request_listeners.find r = some listener)
    (ht₂ : server₂.transport.unregister_listener (origin_filter.getD UUri.any)
        (some (server₂.uri_provider r)) listener = .error s₂) :
    register_endpoint server₁ origin_filter r handler =
      (.error (RegistrationError.from s₁), server₁) ∧
    unregister_endpoint server₂ origin_filter r handler =
      (.error (RegistrationError.from s₂), server₂) := by
  constructor
  · simp [register_endpoint, hov, hsv₁, hc, ht₁]
  · simp [unregister_endpoint, hov, hsv₂, hf, ht₂]

/-- Witness for C4 at concrete servers with a failing transport. -/
theorem registration_atomic_on_transport_failure_witness :
    register_endpoint emptyFailServer none 0x7000 okHandler =
      (.error (RegistrationError.from failStatus), emptyFailServer) ∧
    unregister_endpoint occupiedFailServer none 0x7000 okHandler =
      (.error (RegistrationError.from failStatus), occupiedFailServer) :=
  registration_atomic_on_transport_failure emptyFailServer occupiedFailServer
    none 0x7000 okHandler ⟨okHandler⟩ failStatus failStatus
    rfl rfl rfl rfl rfl rfl rfl

/-- C5: registering the same in-range resource id twice fails with
`MaxListenersExceeded` on the second call, leaving the registry — and in
particular the first registration's entry with its original handler —
unchanged. -/
theorem register_twice_max_listeners
    (server : InMemoryRpcServer) (r : Nat)
    (handler1 handler2 : RequestHandler)
    (hprov : (server.uri_provider r).resource_id = r)
    (hr : 1 ≤ r ∧ r ≤ 0x7FFF)
    (hc : server.request_listeners.contains r = false)
    (ht : server.transport.register_listener UUri.any
        (some (server.uri_provider r)) ⟨handler1⟩ = .ok ()) :
    (register_endpoint server none r handler1).1 = .ok () ∧
    register_endpoint (register_endpoint server none r handler1).2 none r
        handler2 =
      (.error .MaxListenersExceeded,
        (register_endpoint server none r handler1).2) ∧
    ((register_endpoint server none r handler1).2).request_listeners.find r =
      some ⟨handler1⟩ := by
  have hsv : validate_sink_filter (server.uri_provider r) = .ok () := by
    simp [validate_sink_filter, UUri.is_rpc_method, hprov, hr.1, hr.2]
  have h1 : register_endpoint server none r handler1 =
      (.ok (), { server with request_listeners :=
        (r, ⟨handler1⟩) :: server.request_listeners }) := by
    simp [register_endpoint, validate_origin_filter, hsv, hc, ht]
  have h2 : Registry.contains
      ((r, (⟨handler1⟩ : RequestListener)) :: server.request_listeners) r
      = true := by
    simp [Registry.contains, Registry.find]
  rw [h1]
  refine ⟨rfl, ?_, by simp [Registry.find]⟩
  simp [register_endpoint, validate_origin_filter, hsv, h2]

/-- Witness for C5 at resource id 0x7000 on the empty server. -/
theorem register_twice_max_listeners_witness :
    (register_endpoint emptyServer none 0x7000 okHandler).1 = .ok () ∧
    register_endpoint (register_endpoint emptyServer none 0x7000 okHandler).2
        none 0x7000 slowHandler =
      (.error .MaxListenersExceeded,
        (register_endpoint emptyServer none 0x7000 okHandler).2) ∧
    ((register_endpoint emptyServer none 0x7000
        okHandler).2).request_listeners.find 0x7000 = some ⟨okHandler⟩ :=
  register_twice_max_listeners emptyServer 0x7000 okHandler slowHandler
    rfl (by decide) rfl rfl

/-- C6: a resource id of 0 or above 0x7FFF, or an origin filter whose
resource id is not 0, makes both register and unregister fail with
`InvalidFilter`, with the registry unchanged and the outcome independent
of the transport (the transport is never invoked). -/
theorem invalid_filter_rejected
    (server : InMemoryRpcServer) (origin_filter : Option UUri) (r : Nat)
    (handler : RequestHandler)
    (hprov : (server.uri_provider r).resource_id = r)
    (hbad : r = 0 ∨ 0x7FFF < r ∨
      ∃ u, origin_filter = some u ∧ u.resource_id ≠ 0) :
    ∃ reason,
      (∀ t, register_endpoint { server with transport := t } origin_filter r
          handler =
        (.error (.InvalidFilter reason), { server with transport := t })) ∧
      (∀ t h, unregister_endpoint { server with transport := t } origin_filter r
          h =
        (.error (.InvalidFilter reason), { server with transport := t })) := by
  rcases validate_origin_filter_cases origin_filter with hog | hog
  · have hr : r = 0 ∨ 0x7FFF < r := by
      rcases hbad with h | h | ⟨u, hu, hne⟩
      · exact Or.inl h
      · exact Or.inr h
      · exact absurd (validate_origin_filter_ok_resource_id _ hog u hu) hne
    have hsv := validate_sink_filter_invalid (server.uri_provider r)
      (by rw [hprov]; exact hr)
    refine ⟨"RPC endpoint resource ID must be in range [0x0001, 0x7FFF]",
      fun t => ?_, fun t h => ?_⟩
    · simp [register_endpoint, hog, hsv]
    · simp [unregister_endpoint, hog, hsv]
  · refine ⟨"origin filter resource ID must be 0", fun t => ?_, fun t h => ?_⟩
    · simp [register_endpoint, hog]
    · simp [unregister_endpoint, hog]

/-- Witness for C6 at resource id 0 on the empty server. -/
theorem invalid_filter_rejected_witness :
    ∃ reason,
      (∀ t, register_endpoint { emptyServer with transport := t } none 0
          okHandler =
        (.error (.InvalidFilter reason), { emptyServer with transport := t })) ∧
      (∀ t h, unregister_endpoint { emptyServer with transport := t } none 0
          h =
        (.error (.InvalidFilter reason),
          { emptyServer with transport := t })) :=
  invalid_filter_rejected emptyServer none 0 okHandler rfl (Or.inl rfl)

/-- C7: unregistering a resource id with no registry entry fails with
`NoSuchListener`, the registry stays unchanged, and the outcome is
independent of the transport (its unregister capability is never
invoked). -/
theorem unregister_no_such_listener
    (server : InMemoryRpcServer) (origin_filter : Option UUri) (r : Nat)
    (handler : RequestHandler)
    (hov : validate_origin_filter origin_filter = .ok ())
    (hsv : validate_sink_filter (server.uri_provider r) = .ok ())
    (hnone : server.request_listeners.find r = none) :
    ∀ t, unregister_endpoint { server with transport := t } origin_filter r
        handler =
      (.error .NoSuchListener, { server with transport := t }) := by
  intro t
  simp [unregister_endpoint, hov, hsv, hnone]

/-- Witness for C7 at resource id 0x7000 on the empty server, with the
failing transport standing in for an arbitrary one. -/
theorem unregister_no_such_listener_witness :
    unregister_endpoint { emptyServer with transport := failTransport } none
        0x7000 okHandler =
      (.error .NoSuchListener, { emptyServer with transport := failTransport }) :=
  unregister_no_such_listener emptyServer none 0x7000 okHandler rfl rfl rfl
    failTransport

/-- C9: the handler argument of unregister is ignored — any two handler
arguments give identical outcomes, and with valid filters, an existing
entry and a succeeding transport the stored listener is removed whatever
handler is passed. -/
theorem unregister_ignores_handler_argument
    (server : InMemoryRpcServer) (origin_filter : Option UUri) (r : Nat)
    (listener : RequestListener)
    (hov : validate_origin_filter origin_filter = .ok ())
    (hsv : validate_sink_filter (server.uri_provider r) = .ok ())
    (hf : server.request_listeners.find r = some listener)
    (ht : server.transport.unregister_listener (origin_filter.getD UUri.any)
        (some (server.uri_provider r)) listener = .ok ()) :
    (∀ h h' : RequestHandler,
      unregister_endpoint server origin_filter r h =
        unregister_endpoint server origin_filter r h') ∧
    (∀ h : RequestHandler,
      (unregister_endpoint server origin_filter r h).1 = .ok () ∧
      ((unregister_endpoint server origin_filter r
          h).2).request_listeners.find r = none) := by
  refine ⟨fun h h' => rfl, fun h => ?_⟩
  have heq : unregister_endpoint server origin_filter r h =
      (.ok (), { server with request_listeners :=
        server.request_listeners.erase r }) := by
    simp [unregister_endpoint, hov, hsv, hf, ht]
  rw [heq]
  exact ⟨rfl, Registry.find_erase_self _ _⟩

/-- Witness for C9 at resource id 0x7000 on the occupied server. -/
theorem unregister_ignores_handler_argument_witness :
    (∀ h h' : RequestHandler,
      unregister_endpoint occupiedServer none 0x7000 h =
        unregister_endpoint occupiedServer none 0x7000 h') ∧
    (∀ h : RequestHandler,
      (unregister_endpoint occupiedServer none 0x7000 h).1 = .ok () ∧
      ((unregister_endpoint occupiedServer none 0x7000
          h).2).request_listeners.find 0x7000 = none) :=
  unregister_ignores_handler_argument occupiedServer none 0x7000 ⟨okHandler⟩
    rfl rfl rfl rfl

end UProto
